import Mathlib

/-!
Verification of the TDX remote-signal bridge (`src/tdx_bridge/main.cpp`).

The bridge consists of two functions:

* `CallRoxServer(stockCode, price, vol)` performs a WinHTTP POST to
  `127.0.0.1:8000 /api/tdx/calculate` and parses the response body with
  `atof`, returning `0.0f` on every failure path;
* `RoxSignal(DataLen, pfOUT, pfINa, pfINb, pfINc)` is the host callback:
  it zero-fills the output array, then (for `DataLen > 0`) resolves a
  signal for the last bar through `CallRoxServer` and stores it into the
  last output slot.

The embedding below models the outcome of each WinHTTP API call by an
explicit environment `NetEnv` (whether each handle/step succeeds, the
response's HTTP status, the byte count reported by
`WinHttpQueryDataAvailable`, and the body bytes delivered by
`WinHttpReadData`).  Each modelled function returns, besides its result,
the ordered trace of WinHTTP operations it performed, so that claims
about network-call counts, session lifecycle and timeout configuration
can be stated.  The host's `float` values are modelled by `ℚ`; the
claims under scrutiny only involve values (0, 1, 10, 500, …) that are
exact in single precision, so no rounding behaviour is lost.  The output
buffer writes of `RoxSignal` are modelled as the ordered list of
`(index, value)` stores the C code performs.
-/

set_option autoImplicit false

namespace RoxBridge

/-- Character test mirroring C `isspace` in the default locale
(space, tab, newline, vertical tab, form feed, carriage return),
which `atof`/`strtod` skip at the start of the subject string. -/
def isSpaceC (c : Char) : Bool :=
  c = ' ' || c = Char.ofNat 9 || c = Char.ofNat 10 ||
  c = Char.ofNat 11 || c = Char.ofNat 12 || c = Char.ofNat 13

/-- Numeric value of a decimal digit character. -/
def digToNat (c : Char) : Nat := c.toNat - 48

/-- Value of a list of decimal digit characters, most significant first. -/
def natOfDigits (ds : List Char) : Nat :=
  ds.foldl (fun a c => 10 * a + digToNat c) 0

/-- Exponent part of `strtod`: an optional sign followed by decimal digits,
applied to a mantissa given as `num / 10 ^ fracLen`.  If no digit follows
the `e`, `strtod` backs up and the exponent is ignored (the mantissa alone
is the conversion result). -/
def applyExp (num : ℤ) (fracLen : Nat) (t : List Char) : ℚ :=
  let p :=
    match t with
    | '-' :: u => (true, u)
    | '+' :: u => (false, u)
    | _ => (false, t)
  let eds := p.2.takeWhile Char.isDigit
  if eds.isEmpty then mkRat num (10 ^ fracLen)
  else if p.1 then mkRat num (10 ^ (fracLen + natOfDigits eds))
  else mkRat (num * (10 : ℤ) ^ natOfDigits eds) (10 ^ fracLen)

/-- Model of C `atof` (decimal form of `strtod`): skip leading whitespace,
optional sign, decimal digits, optional point and fraction digits, optional
exponent; the result is `0` when no conversion can be performed.  The
hexadecimal, `inf` and `nan` forms of `strtod` are not modelled: the scoring
service's contract is a plain decimal number, and every claim treats this
`atof` as the definition of "parses as a number". -/
def atof (s : List Char) : ℚ :=
  let s1 := s.dropWhile isSpaceC
  let sp :=
    match s1 with
    | '-' :: t => (true, t)
    | '+' :: t => (false, t)
    | _ => (false, s1)
  let ip := sp.2.takeWhile Char.isDigit
  let s3 := sp.2.dropWhile Char.isDigit
  let fr :=
    match s3 with
    | '.' :: t => (t.takeWhile Char.isDigit, t.dropWhile Char.isDigit)
    | _ => (([] : List Char), s3)
  if ip.isEmpty && fr.1.isEmpty then 0
  else
    let base : ℤ := (natOfDigits ip * 10 ^ fr.1.length + natOfDigits fr.1 : Nat)
    let num : ℤ := if sp.1 then -base else base
    match fr.2 with
    | 'e' :: t => applyExp num fr.1.length t
    | 'E' :: t => applyExp num fr.1.length t
    | _ => mkRat num (10 ^ fr.1.length)

/-- Character for the decimal digit `n` (for `n < 10`). -/
def digitChar (n : Nat) : Char := Char.ofNat (48 + n)

/-- Integer nearest to `100 * q` (ties away from `0`), the scaled-integer
view of `sprintf "%.2f"` rounding.  The values the bridge formats are
exact two-decimal quantities, for which this is exact. -/
def round2 (q : ℚ) : ℤ :=
  let m : Nat := (200 * q.num.natAbs + q.den) / (2 * q.den)
  if q.num < 0 then -(m : ℤ) else (m : ℤ)

/-- Decimal rendering of `%.2f`: sign, integer part, point, exactly two
fraction digits. -/
def fmt2 (q : ℚ) : String :=
  String.mk
    ((if round2 q < 0 then ['-'] else []) ++ (toString ((round2 q).natAbs / 100)).data ++
      '.' :: [digitChar ((round2 q).natAbs / 10 % 10), digitChar ((round2 q).natAbs % 10)])

/-- Request body built by `sprintf_s(payload, "...", stockCode, price, vol)`
in `CallRoxServer`: a JSON object with exactly the fields `code`, `price`
and `vol`, the numeric fields in fixed two-decimal format. -/
def mkPayload (stockCode : String) (price vol : ℚ) : String :=
  "\x7b\"code\":\"" ++ stockCode ++ "\", \"price\":" ++ fmt2 price ++
    ", \"vol\":" ++ fmt2 vol ++ "\x7d"

/-- Kinds of WinHTTP handle the bridge opens (session, connection, request),
used to record which handle a `WinHttpCloseHandle` call closes. -/
inductive HandleKind where
  | session
  | connection
  | request
  deriving DecidableEq, Repr

/-- One WinHTTP API call observable in a trace of `CallRoxServer`.  The
`setTimeouts` constructor stands for `WinHttpSetTimeouts` (resolve,
connect, send, receive budgets in milliseconds), the one WinHTTP call that
would configure a bounded timeout; the source never performs it, and the
constructor exists so that its absence from every trace can be stated. -/
inductive WinHttpOp where
  | openSession
  | setTimeouts (resolve conn send receive : Nat)
  | connectTo (host : String) (port : Nat)
  | openRequest (verb path : String)
  | sendRequest (payload : String)
  | receiveResponse
  | queryDataAvailable
  | readData (count : Nat)
  | closeHandle (h : HandleKind)
  deriving DecidableEq, Repr

/-- Environment describing how the network side behaves during one
`CallRoxServer` invocation: whether `WinHttpOpen`, `WinHttpConnect`,
`WinHttpOpenRequest` and `WinHttpSendRequest` succeed, the HTTP status of
the response, the byte count `WinHttpQueryDataAvailable` stores into
`dwSize` (0 when receive/query fails or the body is empty), and the
response body bytes `WinHttpReadData` would deliver.  The status field is
part of the environment because the exchange has one, but the source never
calls `WinHttpQueryHeaders`, so no code path can depend on it. -/
structure NetEnv where
  sessionOk : Bool
  connectOk : Bool
  requestOk : Bool
  sendOk : Bool
  httpStatus : Nat
  availSize : Nat
  body : List Char
  deriving DecidableEq, Repr

/-- Number of bytes `WinHttpReadData` delivers into the 64-byte stack
buffer: the requested `dwSize` capped by what the body still holds. -/
def downloadedLen (env : NetEnv) : Nat := min env.availSize env.body.length

/-- C string handed to `atof`: the downloaded bytes, NUL-terminated by
`buffer[dwDownloaded] = 0` and therefore cut at any embedded NUL. -/
def respCStr (env : NetEnv) : List Char :=
  (env.body.take (downloadedLen env)).takeWhile (fun c => c ≠ Char.ofNat 0)

/-- Embedding of `CallRoxServer` from `src/tdx_bridge/main.cpp`: the
returned signal together with the ordered trace of WinHTTP calls.  The
control flow mirrors the source exactly: early return without cleanup when
the session fails to open; session closed and `0.0` returned when the
connection fails; when the request handle fails, the send is skipped and
cleanup closes connection and session; when the send fails, response
handling is skipped; otherwise the response is received, the available
size queried, and the body is read and parsed only when
`dwSize > 0 && dwSize < 63`, the result defaulting to `0.0` otherwise. -/
def CallRoxServer (env : NetEnv) (stockCode : String) (price vol : ℚ) :
    ℚ × List WinHttpOp :=
  if env.sessionOk = false then (0, [.openSession])
  else if env.connectOk = false then
    (0, [.openSession, .connectTo "127.0.0.1" 8000, .closeHandle .session])
  else if env.requestOk = false then
    (0, [.openSession, .connectTo "127.0.0.1" 8000,
         .openRequest "POST" "/api/tdx/calculate",
         .closeHandle .connection, .closeHandle .session])
  else if env.sendOk = false then
    (0, [.openSession, .connectTo "127.0.0.1" 8000,
         .openRequest "POST" "/api/tdx/calculate",
         .sendRequest (mkPayload stockCode price vol),
         .closeHandle .request, .closeHandle .connection, .closeHandle .session])
  else
    (if 0 < env.availSize ∧ env.availSize < 63 then atof (respCStr env) else 0,
      [.openSession, .connectTo "127.0.0.1" 8000,
       .openRequest "POST" "/api/tdx/calculate",
       .sendRequest (mkPayload stockCode price vol),
       .receiveResponse, .queryDataAvailable] ++
      (if 0 < env.availSize ∧ env.availSize < 63 then [.readData (downloadedLen env)]
       else []) ++
      [.closeHandle .request, .closeHandle .connection, .closeHandle .session])

/-- Embedding of the `RoxSignal` callback: the ordered list of
`(index, value)` stores into `pfOUT`, together with the WinHTTP trace.
The source first runs `for(i=0; i<DataLen; i++) pfOUT[i] = 0.0f;`, then,
only when `DataLen > 0`, reads `pfINa[DataLen-1]` and `pfINb[DataLen-1]`,
calls `CallRoxServer("UNKNOWN", lastPrice, lastVol)` and stores the signal
into `pfOUT[DataLen-1]`.  The input arrays are modelled as lists the host
supplies with at least `DataLen` elements. -/
def RoxSignal (env : NetEnv) (DataLen : Int) (pfINa pfINb : List ℚ) :
    List (Nat × ℚ) × List WinHttpOp :=
  let fill := (List.range DataLen.toNat).map (fun i => (i, (0 : ℚ)))
  if 0 < DataLen then
    let lastPrice := pfINa.getD (DataLen.toNat - 1) 0
    let lastVol := pfINb.getD (DataLen.toNat - 1) 0
    let r := CallRoxServer env "UNKNOWN" lastPrice lastVol
    (fill ++ [(DataLen.toNat - 1, r.1)], r.2)
  else (fill, [])

/-- Final content of output slot `i` after a sequence of stores: the value
of the last store to `i`, or `none` when the slot was never written (an
uninitialized slot). -/
def finalVal (writes : List (Nat × ℚ)) (i : Nat) : Option ℚ :=
  ((writes.filter (fun p => p.1 == i)).getLast?).map (fun p => p.2)

/-- Test for the one trace entry that transmits a request to the server. -/
def isSend : WinHttpOp → Bool
  | .sendRequest _ => true
  | _ => false

/-- Test for a session-opening trace entry (`WinHttpOpen`). -/
def isOpenSession : WinHttpOp → Bool
  | .openSession => true
  | _ => false

/-- Test for the timeout-configuring call `WinHttpSetTimeouts`. -/
def isSetTimeouts : WinHttpOp → Bool
  | .setTimeouts _ _ _ _ => true
  | _ => false

/-- Number of HTTP requests transmitted in a trace. -/
def sendCount (t : List WinHttpOp) : Nat := t.countP isSend

/-- Number of WinHTTP sessions opened in a trace. -/
def openCount (t : List WinHttpOp) : Nat := t.countP isOpenSession

/-- Whether a trace configures any timeout at all. -/
def configuresTimeout (t : List WinHttpOp) : Bool := t.any isSetTimeouts

/-- Request bodies transmitted in a trace, in order. -/
def sentPayloads (t : List WinHttpOp) : List String :=
  t.filterMap (fun op => match op with | .sendRequest p => some p | _ => none)

/-- Signal resolved for the last bar of an invocation, as `RoxSignal`
computes it. -/
def lastBarSignal (env : NetEnv) (n : Int) (a b : List ℚ) : ℚ :=
  (CallRoxServer env "UNKNOWN" (a.getD (n.toNat - 1) 0) (b.getD (n.toNat - 1) 0)).1

/-- Failure of the network path during one exchange: one of the four
WinHTTP handles/steps fails, the available-data query reports nothing or
at least 63 bytes (so the source skips the read), or the body does not
parse to a nonzero number (`atof` yields `0` both for unparseable text and
for a textual zero). -/
def netDown (env : NetEnv) : Prop :=
  env.sessionOk = false ∨ env.connectOk = false ∨ env.requestOk = false ∨
    env.sendOk = false ∨ env.availSize = 0 ∨ 63 ≤ env.availSize ∨
    atof (respCStr env) = 0

/-- Check that a rendered number ends in a decimal point followed by
exactly two digits (the shape `%.2f` promises). -/
def twoDecimalTail (s : String) : Bool :=
  match s.data.reverse with
  | d0 :: d1 :: c :: _ => (c = '.' : Bool) && d1.isDigit && d0.isDigit
  | _ => false

/-- Mock environment of §8 of the spec: a reachable scoring service whose
response body is the four bytes `"1.00"`. -/
def envOk100 : NetEnv :=
  { sessionOk := true, connectOk := true, requestOk := true, sendOk := true,
    httpStatus := 200, availSize := 4, body := "1.00".data }

/-- Environment where `WinHttpConnect` fails (service unreachable). -/
def envConnFail : NetEnv :=
  { sessionOk := true, connectOk := false, requestOk := false, sendOk := false,
    httpStatus := 200, availSize := 0, body := [] }

/-- Reachable service answering the valid signal `"0.00"`. -/
def envZero : NetEnv :=
  { sessionOk := true, connectOk := true, requestOk := true, sendOk := true,
    httpStatus := 200, availSize := 4, body := "0.00".data }

/-- Reachable service answering HTTP 500 with the numeric body `"1.00"`
(WinHTTP delivers the body of a non-2xx response like any other). -/
def env500Num : NetEnv :=
  { sessionOk := true, connectOk := true, requestOk := true, sendOk := true,
    httpStatus := 500, availSize := 4, body := "1.00".data }

/-- Mocked HTTP 500 failure of §8 of the spec: status 500 with a textual
error page as body. -/
def env500Text : NetEnv :=
  { sessionOk := true, connectOk := true, requestOk := true, sendOk := true,
    httpStatus := 500, availSize := 21, body := "Internal Server Error".data }

/-- Reachable service whose first available chunk is 63 bytes. -/
def envBig : NetEnv :=
  { sessionOk := true, connectOk := true, requestOk := true, sendOk := true,
    httpStatus := 200, availSize := 63, body := List.replicate 63 '1' }

/-! ## Helper lemmas -/

/-- Characters produced by `digitChar` for values below ten are decimal
digits. -/
theorem isDigit_digitChar (r : Nat) (h : r < 10) : (digitChar r).isDigit = true := by
  interval_cases r <;> decide

/-- Reversing a character list that ends in a point and two trailing
characters surfaces those three characters first. -/
theorem rev_shape (A : List Char) (x y : Char) :
    (A ++ '.' :: [x, y]).reverse = y :: x :: '.' :: A.reverse := by
  simp

/-- Value of `twoDecimalTail` on a string that ends in a point and two
characters. -/
theorem twoDecimalTail_mk (A : List Char) (x y : Char) :
    twoDecimalTail (String.mk (A ++ '.' :: [x, y])) = (x.isDigit && y.isDigit) := by
  unfold twoDecimalTail
  rw [show (String.mk (A ++ '.' :: [x, y])).data = A ++ '.' :: [x, y] from rfl, rev_shape]
  simp

/-- Rendering with `fmt2` always ends in a point and exactly two digits. -/
theorem fmt2_twoDecimalTail (q : ℚ) : twoDecimalTail (fmt2 q) = true := by
  have hx := isDigit_digitChar ((round2 q).natAbs / 10 % 10) (Nat.mod_lt _ (by omega))
  have hy := isDigit_digitChar ((round2 q).natAbs % 10) (Nat.mod_lt _ (by omega))
  have h : fmt2 q =
      String.mk
        (((if round2 q < 0 then ['-'] else []) ++ (toString ((round2 q).natAbs / 100)).data)
          ++ '.' :: [digitChar ((round2 q).natAbs / 10 % 10), digitChar ((round2 q).natAbs % 10)]) := by
    unfold fmt2
    rw [List.append_assoc]
  rw [h, twoDecimalTail_mk]
  simp [hx, hy]

/-- Filtering the zero-fill writes for a slot keeps exactly the write to
that slot, when the slot is in range. -/
theorem filter_fill (m i : Nat) :
    ((List.range m).map (fun j => (j, (0 : ℚ)))).filter (fun p => p.1 == i)
      = if i < m then [(i, (0 : ℚ))] else [] := by
  induction m with
  | zero => simp
  | succ m ih =>
    rw [List.range_succ, List.map_append, List.filter_append, ih]
    rcases Nat.lt_trichotomy i m with h | h | h
    · have h1 : (m == i) = false := by simp; omega
      simp [h, Nat.lt_succ_of_lt h, h1]
    · subst h
      simp
    · have h1 : ¬ i < m := by omega
      have h2 : ¬ i < m + 1 := by omega
      have h3 : (m == i) = false := by simp; omega
      simp [h1, h2, h3]

/-- Shape of the write sequence of a positive-length invocation: the full
zero-fill first, then the single signal store into the last slot. -/
theorem RoxSignal_writes (env : NetEnv) (n : Int) (a b : List ℚ) (h : 0 < n) :
    (RoxSignal env n a b).1 =
      (List.range n.toNat).map (fun i => (i, (0 : ℚ)))
        ++ [(n.toNat - 1, lastBarSignal env n a b)] := by
  simp [RoxSignal, lastBarSignal, h]

/-- Trace of a positive-length invocation: exactly the trace of the one
`CallRoxServer` call it performs. -/
theorem RoxSignal_trace (env : NetEnv) (n : Int) (a b : List ℚ) (h : 0 < n) :
    (RoxSignal env n a b).2 =
      (CallRoxServer env "UNKNOWN" (a.getD (n.toNat - 1) 0) (b.getD (n.toNat - 1) 0)).2 := by
  simp [RoxSignal, h]

/-- Final content of each in-range output slot of a positive-length
invocation: the resolved signal in the last slot, zero elsewhere. -/
theorem RoxSignal_finalVal (env : NetEnv) (n : Int) (a b : List ℚ) (h : 0 < n)
    (i : Nat) (hi : i < n.toNat) :
    finalVal (RoxSignal env n a b).1 i =
      some (if i = n.toNat - 1 then lastBarSignal env n a b else 0) := by
  rw [finalVal, RoxSignal_writes env n a b h, List.filter_append, filter_fill]
  by_cases hl : i = n.toNat - 1
  · subst hl
    simp [hi]
  · have h1 : ((n.toNat - 1 : Nat) == i) = false := by simp; omega
    simp [hi, hl, h1]

/-- Every failure of the network path makes `CallRoxServer` return `0`. -/
theorem CallRoxServer_netDown (env : NetEnv) (c : String) (p v : ℚ)
    (hfail : netDown env) :
    (CallRoxServer env c p v).1 = 0 := by
  by_cases h1 : env.sessionOk = false
  · unfold CallRoxServer
    rw [if_pos h1]
  · by_cases h2 : env.connectOk = false
    · unfold CallRoxServer
      rw [if_neg h1, if_pos h2]
    · by_cases h3 : env.requestOk = false
      · unfold CallRoxServer
        rw [if_neg h1, if_neg h2, if_pos h3]
      · by_cases h4 : env.sendOk = false
        · unfold CallRoxServer
          rw [if_neg h1, if_neg h2, if_neg h3, if_pos h4]
        · have h5 : env.availSize = 0 ∨ 63 ≤ env.availSize ∨ atof (respCStr env) = 0 := by
            rcases hfail with h | h | h | h | h | h | h <;> tauto
          unfold CallRoxServer
          rw [if_neg h1, if_neg h2, if_neg h3, if_neg h4]
          by_cases hc : 0 < env.availSize ∧ env.availSize < 63
          · rw [if_pos hc]
            show atof (respCStr env) = 0
            rcases h5 with h | h | h
            · omega
            · omega
            · exact h
          · rw [if_neg hc]


/-- Counting transmitted requests distributes over trace concatenation. -/
theorem sendCount_append (t1 t2 : List WinHttpOp) :
    sendCount (t1 ++ t2) = sendCount t1 + sendCount t2 :=
  List.countP_append _ _ _

/-- Whenever the session, connection and request handles are established,
one invocation of `CallRoxServer` transmits exactly one request. -/
theorem CallRoxServer_sendCount (env : NetEnv) (c : String) (p v : ℚ)
    (hs : env.sessionOk = true) (hc : env.connectOk = true)
    (hr : env.requestOk = true) :
    sendCount (CallRoxServer env c p v).2 = 1 := by
  by_cases h4 : env.sendOk = false
  · simp [CallRoxServer, hs, hc, hr, h4, sendCount, isSend,
      List.countP_cons, List.countP_nil, List.countP_append]
  · by_cases h5 : 0 < env.availSize ∧ env.availSize < 63
    · simp [CallRoxServer, hs, hc, hr, h4, h5, sendCount, isSend,
        List.countP_cons, List.countP_nil, List.countP_append]
    · simp [CallRoxServer, hs, hc, hr, h4, h5, sendCount, isSend,
        List.countP_cons, List.countP_nil, List.countP_append]

/-- Whenever the session, connection and request handles are established,
the one transmitted request carries exactly the `sprintf`-built body. -/
theorem CallRoxServer_sentPayloads (env : NetEnv) (c : String) (p v : ℚ)
    (hs : env.sessionOk = true) (hc : env.connectOk = true)
    (hr : env.requestOk = true) :
    sentPayloads (CallRoxServer env c p v).2 = [mkPayload c p v] := by
  by_cases h4 : env.sendOk = false
  · simp [CallRoxServer, hs, hc, hr, h4, sentPayloads]
  · by_cases h5 : 0 < env.availSize ∧ env.availSize < 63
    · simp [CallRoxServer, hs, hc, hr, h4, h5, sentPayloads]
    · simp [CallRoxServer, hs, hc, hr, h4, h5, sentPayloads]


/-! ## Claims -/

/-- C1: for every callback invocation with `DataLen = n > 0` the adapter
writes every output slot before returning: slots `0 .. n-2` end up `0.0`,
slot `n-1` ends up holding the value resolved for the last bar, no output
position is left undefined, and the write sequence begins with the full
default fill, before the only store that depends on the network. -/
theorem C1_output_fully_defined (env : NetEnv) (n : Int) (a b : List ℚ)
    (h : 0 < n) :
    (∀ i : Nat, i < n.toNat → finalVal (RoxSignal env n a b).1 i ≠ none)
    ∧ (∀ i : Nat, i + 1 < n.toNat → finalVal (RoxSignal env n a b).1 i = some 0)
    ∧ finalVal (RoxSignal env n a b).1 (n.toNat - 1) = some (lastBarSignal env n a b)
    ∧ (RoxSignal env n a b).1 =
        (List.range n.toNat).map (fun i => (i, (0 : ℚ)))
          ++ [(n.toNat - 1, lastBarSignal env n a b)] := by
  have hn : 0 < n.toNat := by omega
  refine ⟨?_, ?_, ?_, RoxSignal_writes env n a b h⟩
  · intro i hi
    rw [RoxSignal_finalVal env n a b h i hi]
    simp
  · intro i hi
    rw [RoxSignal_finalVal env n a b h i (by omega)]
    have hne : i ≠ n.toNat - 1 := by omega
    simp [hne]
  · rw [RoxSignal_finalVal env n a b h _ (by omega)]
    simp

/-- C1 witness: with the mocked service answering `"1.00"` for
price `10.00`, vol `500.00`, the last slot is `1.0` and prior slots `0.0`. -/
theorem C1_output_fully_defined_witness :
    finalVal (RoxSignal envOk100 3 [8, 9, 10] [300, 400, 500]).1 2 = some 1
    ∧ finalVal (RoxSignal envOk100 3 [8, 9, 10] [300, 400, 500]).1 0 = some 0
    ∧ finalVal (RoxSignal envOk100 3 [8, 9, 10] [300, 400, 500]).1 1 = some 0 := by
  obtain ⟨hdef, hzero, hlast, hshape⟩ :=
    C1_output_fully_defined envOk100 3 [8, 9, 10] [300, 400, 500] (by decide)
  refine ⟨?_, hzero 0 (by decide), hzero 1 (by decide)⟩
  have he : lastBarSignal envOk100 3 [8, 9, 10] [300, 400, 500] = 1 := by decide
  rw [he] at hlast
  exact hlast

/-- C2: on every failure of the network path (session open, connect,
request open or send fails, the available-data query reports nothing or an
oversized chunk after a receive/read failure, or the body fails to parse)
the callback still returns, with every in-range output slot holding the
default `0.0`; the embedding is a total function, so no error propagates. -/
theorem C2_failure_absorbed (env : NetEnv) (n : Int) (a b : List ℚ)
    (hfail : netDown env) :
    ∀ i : Nat, i < n.toNat → finalVal (RoxSignal env n a b).1 i = some 0 := by
  intro i hi
  have h : 0 < n := by omega
  rw [RoxSignal_finalVal env n a b h i hi]
  have hz : lastBarSignal env n a b = 0 :=
    CallRoxServer_netDown env _ _ _ hfail
  rw [hz]
  simp

/-- C2 witness: with `WinHttpConnect` failing, both slots of a length-2
invocation are the default `0.0`. -/
theorem C2_failure_absorbed_witness :
    finalVal (RoxSignal envConnFail 2 [5, 6] [7, 8]).1 0 = some 0
    ∧ finalVal (RoxSignal envConnFail 2 [5, 6] [7, 8]).1 1 = some 0 := by
  have h := C2_failure_absorbed envConnFail 2 [5, 6] [7, 8] (Or.inr (Or.inl rfl))
  exact ⟨h 0 (by decide), h 1 (by decide)⟩

/-- C7: every invocation with `DataLen <= 0` performs no store into the
output buffer and issues no WinHTTP call at all. -/
theorem C7_empty_input_noop (env : NetEnv) (n : Int) (a b : List ℚ)
    (h : n ≤ 0) :
    (RoxSignal env n a b).1 = [] ∧ (RoxSignal env n a b).2 = [] := by
  have h1 : ¬ 0 < n := by omega
  have h2 : n.toNat = 0 := by omega
  simp [RoxSignal, h1, h2]

/-- C7 witness: concrete no-op runs at `DataLen = 0` and `DataLen = -3`. -/
theorem C7_empty_input_noop_witness :
    ((RoxSignal envOk100 0 [] []).1 = [] ∧ (RoxSignal envOk100 0 [] []).2 = [])
    ∧ ((RoxSignal envOk100 (-3) [1] [2]).1 = []
        ∧ (RoxSignal envOk100 (-3) [1] [2]).2 = []) :=
  ⟨C7_empty_input_noop envOk100 0 [] [] (by decide),
   C7_empty_input_noop envOk100 (-3) [1] [2] (by decide)⟩

/-- C10: `CallRoxServer` can return a nonzero signal only when the first
available chunk is 1 to 62 bytes long and its prefix parses via `atof` to
a nonzero number (and then the signal is exactly that parse); whenever the
chunk is empty or 63 bytes or larger, or the body parses to zero or not at
all, it returns exactly `0.0`. -/
theorem C10_response_size_cap (env : NetEnv) (c : String) (p v : ℚ) :
    ((CallRoxServer env c p v).1 ≠ 0 →
      1 ≤ env.availSize ∧ env.availSize ≤ 62 ∧ atof (respCStr env) ≠ 0
        ∧ (CallRoxServer env c p v).1 = atof (respCStr env))
    ∧ (env.availSize = 0 ∨ 63 ≤ env.availSize → (CallRoxServer env c p v).1 = 0)
    ∧ (atof (respCStr env) = 0 → (CallRoxServer env c p v).1 = 0) := by
  refine ⟨?_, ?_, ?_⟩
  · intro hne
    by_cases h1 : env.sessionOk = false
    · exact absurd (CallRoxServer_netDown env c p v (Or.inl h1)) hne
    by_cases h2 : env.connectOk = false
    · exact absurd (CallRoxServer_netDown env c p v (Or.inr (Or.inl h2))) hne
    by_cases h3 : env.requestOk = false
    · exact absurd (CallRoxServer_netDown env c p v (Or.inr (Or.inr (Or.inl h3)))) hne
    by_cases h4 : env.sendOk = false
    · exact absurd (CallRoxServer_netDown env c p v
        (Or.inr (Or.inr (Or.inr (Or.inl h4))))) hne
    by_cases hc : 0 < env.availSize ∧ env.availSize < 63
    · have hres : (CallRoxServer env c p v).1 = atof (respCStr env) := by
        unfold CallRoxServer
        rw [if_neg h1, if_neg h2, if_neg h3, if_neg h4, if_pos hc]
      refine ⟨by omega, by omega, ?_, hres⟩
      rw [hres] at hne
      exact hne
    · have : (CallRoxServer env c p v).1 = 0 := by
        unfold CallRoxServer
        rw [if_neg h1, if_neg h2, if_neg h3, if_neg h4, if_neg hc]
      exact absurd this hne
  · intro hsz
    refine CallRoxServer_netDown env c p v ?_
    unfold netDown
    tauto
  · intro hz
    refine CallRoxServer_netDown env c p v ?_
    unfold netDown
    tauto

/-- C10 witness: the nonzero direction at the `"1.00"` environment, the
zero result at a 63-byte first chunk, and the zero result at an
unparseable body. -/
theorem C10_response_size_cap_witness :
    (1 ≤ envOk100.availSize ∧ envOk100.availSize ≤ 62
      ∧ atof (respCStr envOk100) ≠ 0
      ∧ (CallRoxServer envOk100 "UNKNOWN" 10 500).1 = atof (respCStr envOk100))
    ∧ (CallRoxServer envBig "UNKNOWN" 10 500).1 = 0
    ∧ (CallRoxServer env500Text "UNKNOWN" 10 500).1 = 0 :=
  ⟨(C10_response_size_cap envOk100 "UNKNOWN" 10 500).1 (by decide),
   (C10_response_size_cap envBig "UNKNOWN" 10 500).2.1 (by decide),
   (C10_response_size_cap env500Text "UNKNOWN" 10 500).2.2 (by decide)⟩


/-- C3 counterexample: the claimed `ClientError` discipline fails on the
code.  A response with HTTP status 500 and the numeric body `"1.00"` is
returned as the signal `1.0` (the status is never inspected, so a non-2xx
response IS classified as a valid signal), and a connect failure returns
the very same value `0.0` as a genuine zero signal from a 2xx response,
so no failure outcome distinguishable from a valid `0.0` exists. -/
theorem C3_no_distinct_error_counterexample :
    env500Num.httpStatus = 500
    ∧ (CallRoxServer env500Num "UNKNOWN" 10 500).1 = 1
    ∧ envZero.httpStatus = 200
    ∧ (CallRoxServer envConnFail "UNKNOWN" 10 500).1
        = (CallRoxServer envZero "UNKNOWN" 10 500).1 := by
  decide

/-- C3 (amended): `CallRoxServer` has no distinguishable error outcome:
its result never depends on the HTTP status, and every failure of the
exchange (handle/send failure, empty or oversized first chunk, body
parsing to zero or not parsing) yields the same plain `0.0` that a valid
zero signal yields. -/
theorem C3_failure_value_amended (env : NetEnv) (c : String) (p v : ℚ)
    (s : Nat) :
    CallRoxServer { env with httpStatus := s } c p v = CallRoxServer env c p v
    ∧ (netDown env → (CallRoxServer env c p v).1 = 0) := by
  constructor
  · obtain ⟨so, co, ro, sd, st, av, bd⟩ := env
    cases so <;> cases co <;> cases ro <;> cases sd <;>
      simp [CallRoxServer, respCStr, downloadedLen]
  · exact fun hf => CallRoxServer_netDown env c p v hf

/-- C3 amended witness: status-independence and the zero result at the
concrete connect-failure environment. -/
theorem C3_failure_value_amended_witness :
    CallRoxServer { envConnFail with httpStatus := 500 } "UNKNOWN" 10 500
        = CallRoxServer envConnFail "UNKNOWN" 10 500
    ∧ (CallRoxServer envConnFail "UNKNOWN" 10 500).1 = 0 := by
  have h := C3_failure_value_amended envConnFail "UNKNOWN" 10 500 500
  exact ⟨h.1, h.2 (Or.inr (Or.inl rfl))⟩

/-- C4 counterexample: the claim that every exchange is configured with a
hard bounded timeout fails at a concrete successful exchange, whose WinHTTP
trace contains no timeout-setting call at all. -/
theorem C4_no_timeout_counterexample :
    configuresTimeout (CallRoxServer envOk100 "UNKNOWN" 10 500).2 = false := by
  decide

/-- C4 (amended): no invocation of the client or of the callback ever
performs a timeout-configuring WinHTTP call (`WinHttpSetTimeouts` or any
equivalent): the exchange always runs on the library's default timeouts,
so no 300 ms bound is enforced by the bridge. -/
theorem C4_no_timeout_configured (env : NetEnv) (c : String) (p v : ℚ)
    (n : Int) (a b : List ℚ) :
    configuresTimeout (CallRoxServer env c p v).2 = false
    ∧ configuresTimeout (RoxSignal env n a b).2 = false := by
  have hcall : ∀ (c' : String) (p' v' : ℚ),
      configuresTimeout (CallRoxServer env c' p' v').2 = false := by
    intro c' p' v'
    by_cases h1 : env.sessionOk = false
    · simp [CallRoxServer, h1, configuresTimeout, isSetTimeouts]
    by_cases h2 : env.connectOk = false
    · simp [CallRoxServer, h1, h2, configuresTimeout, isSetTimeouts]
    by_cases h3 : env.requestOk = false
    · simp [CallRoxServer, h1, h2, h3, configuresTimeout, isSetTimeouts]
    by_cases h4 : env.sendOk = false
    · simp [CallRoxServer, h1, h2, h3, h4, configuresTimeout, isSetTimeouts]
    by_cases h5 : 0 < env.availSize ∧ env.availSize < 63
    · simp [CallRoxServer, h1, h2, h3, h4, h5, configuresTimeout, isSetTimeouts]
    · simp [CallRoxServer, h1, h2, h3, h4, h5, configuresTimeout, isSetTimeouts]
  refine ⟨hcall c p v, ?_⟩
  by_cases h : 0 < n
  · rw [RoxSignal_trace env n a b h]
    exact hcall _ _ _
  · have h2 : (RoxSignal env n a b).2 = [] := by
      simp [RoxSignal, h]
    rw [h2]
    rfl

/-- C5 counterexample: two successive invocations with identical
instrument, price and volume (and no time passing at all, hence within any
TTL) transmit two requests in total, not one: no cache suppresses the
second network call. -/
theorem C5_no_cache_counterexample :
    sendCount ((RoxSignal envOk100 3 [8, 9, 10] [300, 400, 500]).2
      ++ (RoxSignal envOk100 3 [8, 9, 10] [300, 400, 500]).2) = 2 := by
  decide

/-- C5 (amended): there is no result cache: every invocation with
`DataLen > 0` whose session, connection and request handles are
established transmits its own request, so two successive identical
invocations transmit two requests in total. -/
theorem C5_every_call_fetches (env : NetEnv) (n : Int) (a b : List ℚ)
    (h : 0 < n) (hs : env.sessionOk = true) (hc : env.connectOk = true)
    (hr : env.requestOk = true) :
    sendCount ((RoxSignal env n a b).2 ++ (RoxSignal env n a b).2) = 2 := by
  have h1 : sendCount (RoxSignal env n a b).2 = 1 := by
    rw [RoxSignal_trace env n a b h]
    exact CallRoxServer_sendCount env _ _ _ hs hc hr
  rw [sendCount_append, h1]

/-- C5 amended witness: two identical length-2 invocations against the
reachable mock transmit two requests. -/
theorem C5_every_call_fetches_witness :
    sendCount ((RoxSignal envOk100 2 [9, 10] [400, 500]).2
      ++ (RoxSignal envOk100 2 [9, 10] [400, 500]).2) = 2 :=
  C5_every_call_fetches envOk100 2 [9, 10] [400, 500] (by decide) rfl rfl rfl

/-- C6 counterexample: after the mocked HTTP 500 failure the caller does
receive `0.0` in the last slot, but nothing is cached: the retried
identical invocation transmits one fresh request instead of none. -/
theorem C6_no_cooldown_counterexample :
    finalVal (RoxSignal env500Text 3 [8, 9, 10] [300, 400, 500]).1 2 = some 0
    ∧ sendCount (RoxSignal env500Text 3 [8, 9, 10] [300, 400, 500]).2 = 1 := by
  decide

/-- C6 (amended): after a producer failure the caller receives the
`0.0` sentinel in the last output slot, but no failure is cached for any
cooldown window: a retried invocation for the same key transmits a new
request. -/
theorem C6_failure_not_cached (env : NetEnv) (n : Int) (a b : List ℚ)
    (h : 0 < n) (hs : env.sessionOk = true) (hc : env.connectOk = true)
    (hr : env.requestOk = true) (hz : atof (respCStr env) = 0) :
    finalVal (RoxSignal env n a b).1 (n.toNat - 1) = some 0
    ∧ sendCount (RoxSignal env n a b).2 = 1 := by
  constructor
  · rw [RoxSignal_finalVal env n a b h _ (by omega)]
    have hzero : lastBarSignal env n a b = 0 := by
      refine CallRoxServer_netDown env _ _ _ ?_
      unfold netDown
      tauto
    rw [hzero]
    simp
  · rw [RoxSignal_trace env n a b h]
    exact CallRoxServer_sendCount env _ _ _ hs hc hr

/-- C6 amended witness: the HTTP 500 mock environment, with the retried
invocation still transmitting one request. -/
theorem C6_failure_not_cached_witness :
    finalVal (RoxSignal env500Text 2 [9, 10] [400, 500]).1 1 = some 0
    ∧ sendCount (RoxSignal env500Text 2 [9, 10] [400, 500]).2 = 1 := by
  have h := C6_failure_not_cached env500Text 2 [9, 10] [400, 500]
    (by decide) rfl rfl rfl (by decide)
  exact h

/-- C8 counterexample: the claimed long-lived reused session does not
exist.  One successful call already closes its session before returning,
and two successive calls open two sessions. -/
theorem C8_session_per_call_counterexample :
    openCount ((CallRoxServer envOk100 "UNKNOWN" 10 500).2
      ++ (CallRoxServer envOk100 "UNKNOWN" 10 500).2) = 2
    ∧ WinHttpOp.closeHandle HandleKind.session
        ∈ (CallRoxServer envOk100 "UNKNOWN" 10 500).2 := by
  decide

/-- C8 (amended): every `CallRoxServer` invocation opens exactly one fresh
WinHTTP session of its own, and whenever that open succeeds the same
invocation also closes the session before returning, so no session object
survives to be reused by a later call. -/
theorem C8_fresh_session_each_call (env : NetEnv) (c : String) (p v : ℚ) :
    openCount (CallRoxServer env c p v).2 = 1
    ∧ (env.sessionOk = true →
        WinHttpOp.closeHandle HandleKind.session ∈ (CallRoxServer env c p v).2) := by
  constructor
  · by_cases h1 : env.sessionOk = false
    · simp [CallRoxServer, h1, openCount, isOpenSession,
        List.countP_cons, List.countP_nil, List.countP_append]
    by_cases h2 : env.connectOk = false
    · simp [CallRoxServer, h1, h2, openCount, isOpenSession,
        List.countP_cons, List.countP_nil, List.countP_append]
    by_cases h3 : env.requestOk = false
    · simp [CallRoxServer, h1, h2, h3, openCount, isOpenSession,
        List.countP_cons, List.countP_nil, List.countP_append]
    by_cases h4 : env.sendOk = false
    · simp [CallRoxServer, h1, h2, h3, h4, openCount, isOpenSession,
        List.countP_cons, List.countP_nil, List.countP_append]
    by_cases h5 : 0 < env.availSize ∧ env.availSize < 63
    · simp [CallRoxServer, h1, h2, h3, h4, h5, openCount, isOpenSession,
        List.countP_cons, List.countP_nil, List.countP_append]
    · simp [CallRoxServer, h1, h2, h3, h4, h5, openCount, isOpenSession,
        List.countP_cons, List.countP_nil, List.countP_append]
  · intro hs
    have h1 : ¬ env.sessionOk = false := by simp [hs]
    by_cases h2 : env.connectOk = false
    · simp [CallRoxServer, h1, h2]
    by_cases h3 : env.requestOk = false
    · simp [CallRoxServer, h1, h2, h3]
    by_cases h4 : env.sendOk = false
    · simp [CallRoxServer, h1, h2, h3, h4]
    by_cases h5 : 0 < env.availSize ∧ env.availSize < 63
    · simp [CallRoxServer, h1, h2, h3, h4, h5]
    · simp [CallRoxServer, h1, h2, h3, h4, h5]

/-- C8 amended witness: the successful concrete call opens one session and
closes it. -/
theorem C8_fresh_session_each_call_witness :
    openCount (CallRoxServer envOk100 "UNKNOWN" 10 500).2 = 1
    ∧ WinHttpOp.closeHandle HandleKind.session
        ∈ (CallRoxServer envOk100 "UNKNOWN" 10 500).2 := by
  have h := C8_fresh_session_each_call envOk100 "UNKNOWN" 10 500
  exact ⟨h.1, h.2 rfl⟩

/-- C9 counterexample: the body the bridge actually sends carries the
placeholder `"UNKNOWN"` (upper case), which differs from the `"unknown"`
placeholder the claim prescribes. -/
theorem C9_placeholder_case_counterexample :
    sentPayloads (RoxSignal envOk100 1 [10] [500]).2 = [mkPayload "UNKNOWN" 10 500]
    ∧ mkPayload "UNKNOWN" 10 500
        = "\x7b\"code\":\"UNKNOWN\", \"price\":10.00, \"vol\":500.00\x7d"
    ∧ mkPayload "UNKNOWN" 10 500 ≠ mkPayload "unknown" 10 500 := by
  decide

/-- C9 (amended): every invocation with `DataLen > 0` whose handles are
established transmits exactly one body, the JSON object with exactly the
fields `code`, `price` and `vol` built by `mkPayload`, with the code field
holding the explicit placeholder `"UNKNOWN"` (upper case, since the host
exposes no instrument identity to the callback) and both numeric fields
rendered with a point followed by exactly two digits. -/
theorem C9_payload_shape (env : NetEnv) (n : Int) (a b : List ℚ)
    (h : 0 < n) (hs : env.sessionOk = true) (hc : env.connectOk = true)
    (hr : env.requestOk = true) :
    sentPayloads (RoxSignal env n a b).2 =
      [mkPayload "UNKNOWN" (a.getD (n.toNat - 1) 0) (b.getD (n.toNat - 1) 0)]
    ∧ twoDecimalTail (fmt2 (a.getD (n.toNat - 1) 0)) = true
    ∧ twoDecimalTail (fmt2 (b.getD (n.toNat - 1) 0)) = true := by
  refine ⟨?_, fmt2_twoDecimalTail _, fmt2_twoDecimalTail _⟩
  rw [RoxSignal_trace env n a b h]
  exact CallRoxServer_sentPayloads env _ _ _ hs hc hr

/-- C9 amended witness: the concrete invocation sends exactly the
`"UNKNOWN"` body for price `10.00`, vol `500.00`. -/
theorem C9_payload_shape_witness :
    sentPayloads (RoxSignal envOk100 1 [10] [500]).2 = [mkPayload "UNKNOWN" 10 500]
    ∧ twoDecimalTail (fmt2 10) = true
    ∧ twoDecimalTail (fmt2 500) = true := by
  have h := C9_payload_shape envOk100 1 [10] [500] (by decide) rfl rfl rfl
  exact ⟨h.1, h.2.1, h.2.2⟩

end RoxBridge

